import Mathlib

/-!
Verification of the EngageFlow campaign scheduling and bulk-send subsystem.

The definitions below are a shallow embedding of the TypeScript source:
  - `src/server/storage.ts` (`MemStorage`, the in-memory record store),
  - `src/server/services/schedulerService.ts` (`SchedulerService` and
    `EmailService`),
  - the AI personalization service (`AIPersonalizationService`).

Modeling conventions:
  - Timestamps (`Date` values) are milliseconds since the epoch, as `Int`
    (matching `Date.getTime()` arithmetic in the source).
  - Entity ids: the source draws `randomUUID()` strings; the embedding draws
    fresh ids from a per-store counter (`Storage.nextId`), preserving
    freshness and distinctness, which is all the source relies on.
  - `Map<string, T>` stores become association lists in insertion order
    (`Array.from(map.values())` iterates in insertion order). The source
    sometimes sorts query results by a date column before returning; the
    properties verified here are order-independent (memberships and counts),
    so the embedding returns the lists unsorted, with a comment at each
    such spot.
  - External capabilities (email provider, AI personalization, AI scoring,
    locale date formatting) are parameters in an `Env` record; a capability
    that can throw is modeled with `Option` (`none` = the call threw).
  - Async/await sequencing is serialized: within a batch the source fires
    sends concurrently, but the counters, error list and created records are
    commutative accumulations, so a left fold is an adequate serialization
    (the spec itself notes batch boundaries affect pacing only).
-/

/-! ## String replacement (JS `String.prototype.replace` with a global literal
pattern). Placeholders use literal braces, written with `\x7b`/`\x7d` escapes. -/

/-- Fuel-indexed worker for global replacement of the literal pattern `pat` by
`repl`, scanning left to right over non-overlapping occurrences, as JS
`s.replace(/pat/g, repl)` does for a pattern with no regex metacharacters.
The fuel is consumed once per examined position; `replaceAll` supplies
`s.length`, which suffices because every replaced pattern is nonempty.
Dollar escapes in the replacement string are not modeled (no call site uses
them). -/
def replaceTail (pat repl : List Char) : Nat → List Char → List Char
  | _, [] => []
  | 0, s => s
  | Nat.succ fuel, c :: rest =>
    if pat.isPrefixOf (c :: rest) then
      repl ++ replaceTail pat repl fuel ((c :: rest).drop pat.length)
    else
      c :: replaceTail pat repl fuel rest

/-- Global replacement of the literal pattern `pat` by `repl` in `s`. -/
def replaceAll (pat repl s : List Char) : List Char :=
  replaceTail pat repl s.length s

/-- String-level wrapper of `replaceAll`; embeds
`result.replace(/pat/g, repl)` from `EmailService.applyTemplateVariables`. -/
def replaceStr (pat repl s : String) : String :=
  (replaceAll pat.toList repl.toList s.toList).asString

theorem replaceTail_no_occurrence (pat repl : List Char) :
    ∀ (fuel : Nat) (s : List Char), ¬ pat <:+: s → replaceTail pat repl fuel s = s := by
  intro fuel
  induction fuel with
  | zero => intro s _; cases s <;> rfl
  | succ n ih =>
    intro s hs
    cases s with
    | nil => rfl
    | cons c rest =>
      have hpre : ¬ pat.isPrefixOf (c :: rest) = true := by
        intro h
        exact hs (List.IsPrefix.isInfix (List.isPrefixOf_iff_prefix.mp h))
      have hrest : ¬ pat <:+: rest := fun h => hs (List.infix_cons h)
      simp only [replaceTail]
      rw [if_neg hpre, ih rest hrest]

theorem replaceAll_no_occurrence (pat repl s : List Char) (h : ¬ pat <:+: s) :
    replaceAll pat repl s = s :=
  replaceTail_no_occurrence pat repl s.length s h

theorem replaceStr_no_occurrence (pat repl : String) (s : String)
    (h : ¬ pat.toList <:+: s.toList) : replaceStr pat repl s = s := by
  simp only [replaceStr, replaceAll_no_occurrence pat.toList repl.toList s.toList h]
  rfl

/-! ## Data model (from `shared/schema.ts`). Free-form `jsonb` metadata
columns carry no verified content and are omitted where noted. -/

/-- Entity id. See the modeling conventions above. -/
abbrev EntityId := Nat

/-- Row type of the `events` table. -/
structure Event where
  id : EntityId
  title : String
  description : Option String
  startDate : Int
  endDate : Option Int
  timezone : Option String
  maxAttendees : Option Int
  isPublic : Option Bool
  status : Option String
  imageUrl : Option String
  location : Option String
  tags : Option (List String)
  createdAt : Int
  updatedAt : Int
deriving DecidableEq

/-- The `preferences` jsonb column of `attendees`. -/
structure AttendeePreferences where
  emailFrequency : String
  contentTypes : List String
  timezone : String
deriving DecidableEq

/-- Row type of the `attendees` table. -/
structure Attendee where
  id : EntityId
  email : String
  name : String
  company : Option String
  jobTitle : Option String
  interests : Option (List String)
  engagementScore : Option Int
  registrationDate : Int
  lastActivity : Int
  preferences : Option AttendeePreferences
deriving DecidableEq

/-- Row type of the `event_registrations` table (the `feedback` jsonb column
is omitted; no verified operation reads it). -/
structure EventRegistration where
  id : EntityId
  eventId : EntityId
  attendeeId : EntityId
  registrationDate : Int
  attended : Option Bool
  attendanceTime : Option Int
deriving DecidableEq

/-- The engagement-score range of a campaign's `targetAudience`. -/
structure ScoreRange where
  min : Int
  max : Int
deriving DecidableEq

/-- The `targetAudience` jsonb column of `email_campaigns`. The TypeScript
type declares all three fields, but runtime objects may omit any of them and
`EmailService.getTargetAttendees` guards each with a truthiness check, so
each field is an `Option` here. -/
structure TargetAudience where
  interests : Option (List String)
  engagementScore : Option ScoreRange
  attendanceHistory : Option String
deriving DecidableEq

/-- Row type of the `email_campaigns` table. -/
structure EmailCampaign where
  id : EntityId
  name : String
  type : String
  eventId : Option EntityId
  templateId : Option EntityId
  subject : String
  content : String
  scheduledAt : Option Int
  sentAt : Option Int
  status : Option String
  targetAudience : Option TargetAudience
  createdAt : Int
deriving DecidableEq

/-- Row type of the `email_templates` table. -/
structure EmailTemplate where
  id : EntityId
  name : String
  type : String
  subject : String
  content : String
  templateVars : Option (List String)
  isActive : Option Bool
  createdAt : Int
  updatedAt : Int
deriving DecidableEq

/-- Row type of the `email_sends` table. -/
structure EmailSend where
  id : EntityId
  campaignId : EntityId
  attendeeId : EntityId
  sentAt : Int
  openedAt : Option Int
  clickedAt : Option Int
  bounced : Option Bool
  unsubscribed : Option Bool
deriving DecidableEq

/-- Row type of the `analytics_events` table (free-form `metadata` omitted).
The schema allows a null timestamp with a now-default; `MemStorage` always
stamps `new Date()`, so the embedding keeps a plain `Int`. -/
structure AnalyticsEvent where
  id : EntityId
  eventType : String
  attendeeId : Option EntityId
  eventId : Option EntityId
  campaignId : Option EntityId
  timestamp : Int
deriving DecidableEq

/-- The in-memory record store (`MemStorage`): one list per entity map, in
insertion order, plus the fresh-id counter standing in for `randomUUID()`. -/
structure Storage where
  events : List Event
  attendees : List Attendee
  eventRegistrations : List EventRegistration
  emailCampaigns : List EmailCampaign
  emailTemplates : List EmailTemplate
  emailSends : List EmailSend
  analyticsEvents : List AnalyticsEvent
  nextId : EntityId
deriving DecidableEq

/-- External collaborators of the subsystem, per invocation context:
the current wall clock, the email provider's `sendEmail` (recipient, subject,
content, returning a success boolean), the AI personalization capability
(`none` = the call threw, caught by `EmailService.sendCampaignEmail`), and
the locale date/time formatters used by template rendering. -/
structure Env where
  now : Int
  sendEmail : String → String → String → Bool
  personalize : Attendee → Option Event → EmailTemplate → Option (String × String)
  formatDate : Int → String
  formatTime : Int → String

/-! ## Record store operations (`MemStorage` methods). Each definition embeds
the method of the same name; sorting of query results by a date column is
noted where the source performs it. -/

/-- `MemStorage.getEvent`. -/
def getEvent (st : Storage) (id : EntityId) : Option Event :=
  st.events.find? (fun e => e.id == id)

/-- `MemStorage.getEvents` (the source sorts by `createdAt` descending; the
verified properties are order-independent, so the list is returned as
stored). -/
def getEvents (st : Storage) : List Event :=
  st.events

/-- `MemStorage.getAttendees` (the source sorts by `registrationDate`
descending; the verified properties are order-independent, so the list is
returned as stored). -/
def getAttendees (st : Storage) : List Attendee :=
  st.attendees

/-- `MemStorage.getEventRegistrations` with an `eventId` argument (the source
additionally sorts by `registrationDate` descending; order-independent
here). -/
def getEventRegistrations (st : Storage) (eventId : EntityId) : List EventRegistration :=
  st.eventRegistrations.filter (fun r => r.eventId == eventId)

/-- `MemStorage.getEmailCampaign`. -/
def getEmailCampaign (st : Storage) (id : EntityId) : Option EmailCampaign :=
  st.emailCampaigns.find? (fun c => c.id == id)

/-- `MemStorage.getEmailTemplate`. -/
def getEmailTemplate (st : Storage) (id : EntityId) : Option EmailTemplate :=
  st.emailTemplates.find? (fun t => t.id == id)

/-- Insert payload of `MemStorage.createAttendee` (the insert schema omits
`id`, `registrationDate`, `lastActivity`, `engagementScore`). -/
structure InsertAttendee where
  email : String
  name : String
  company : Option String := none
  jobTitle : Option String := none
  interests : Option (List String) := none
  preferences : Option AttendeePreferences := none
deriving DecidableEq

/-- `MemStorage.createAttendee`: fresh id, `engagementScore: 0`, both date
fields stamped with the current time. -/
def createAttendee (st : Storage) (d : InsertAttendee) (now : Int) : Storage × Attendee :=
  let a : Attendee :=
    { id := st.nextId, email := d.email, name := d.name, company := d.company,
      jobTitle := d.jobTitle, interests := d.interests, engagementScore := some 0,
      registrationDate := now, lastActivity := now, preferences := d.preferences }
  ({ st with attendees := st.attendees ++ [a], nextId := st.nextId + 1 }, a)

/-- `MemStorage.updateAttendee`: spreads the partial update over the stored
record and always refreshes `lastActivity` with the current time. The
partial update is the spread of a concrete `Partial<Attendee>`, modeled as a
field-updating function; a missing id leaves the store unchanged. -/
def updateAttendee (st : Storage) (id : EntityId) (upd : Attendee → Attendee)
    (now : Int) : Storage :=
  { st with attendees := st.attendees.map (fun a =>
      if a.id == id then { upd a with lastActivity := now } else a) }

/-- `MemStorage.updateAttendeeEngagement`: overwrites `engagementScore` with
the given score and refreshes `lastActivity`; a missing id is a no-op. -/
def updateAttendeeEngagement (st : Storage) (id : EntityId) (score : Int)
    (now : Int) : Storage :=
  { st with attendees := st.attendees.map (fun a =>
      if a.id == id then { a with engagementScore := some score, lastActivity := now } else a) }

/-- Partial update accepted by `MemStorage.updateEmailCampaign`, restricted to
the fields the verified subsystem passes (`status`, `sentAt`); a `none` field
is absent from the update object and leaves the stored value. -/
structure EmailCampaignUpdate where
  status : Option String := none
  sentAt : Option Int := none
deriving DecidableEq

/-- `MemStorage.updateEmailCampaign`: spread of the update over the stored
record; a missing id leaves the store unchanged (the source returns
`undefined` without writing). -/
def updateEmailCampaign (st : Storage) (id : EntityId) (upd : EmailCampaignUpdate) : Storage :=
  { st with emailCampaigns := st.emailCampaigns.map (fun c =>
      if c.id == id then
        { c with
          status := match upd.status with | some s => some s | none => c.status,
          sentAt := match upd.sentAt with | some t => some t | none => c.sentAt }
      else c) }

/-- Insert payload of `MemStorage.createAnalyticsEvent` (free-form `metadata`
omitted). -/
structure InsertAnalyticsEvent where
  eventType : String
  attendeeId : Option EntityId := none
  eventId : Option EntityId := none
  campaignId : Option EntityId := none
deriving DecidableEq

/-- `MemStorage.createAnalyticsEvent`: fresh id, timestamp stamped with the
current time, appended to the store. -/
def createAnalyticsEvent (st : Storage) (e : InsertAnalyticsEvent) (now : Int) :
    Storage × AnalyticsEvent :=
  let ev : AnalyticsEvent :=
    { id := st.nextId, eventType := e.eventType, attendeeId := e.attendeeId,
      eventId := e.eventId, campaignId := e.campaignId, timestamp := now }
  ({ st with analyticsEvents := st.analyticsEvents ++ [ev], nextId := st.nextId + 1 }, ev)

/-- Insert payload of `MemStorage.createEmailSend` (`Omit<EmailSend, 'id'>`). -/
structure InsertEmailSend where
  campaignId : EntityId
  attendeeId : EntityId
  sentAt : Int
  openedAt : Option Int := none
  clickedAt : Option Int := none
  bounced : Option Bool := none
  unsubscribed : Option Bool := none
deriving DecidableEq

/-- `MemStorage.createEmailSend`: fresh id, appended to the store. -/
def createEmailSend (st : Storage) (s : InsertEmailSend) : Storage × EmailSend :=
  let send : EmailSend :=
    { id := st.nextId, campaignId := s.campaignId, attendeeId := s.attendeeId,
      sentAt := s.sentAt, openedAt := s.openedAt, clickedAt := s.clickedAt,
      bounced := s.bounced, unsubscribed := s.unsubscribed }
  ({ st with emailSends := st.emailSends ++ [send], nextId := st.nextId + 1 }, send)

/-- Partial update accepted by `MemStorage.updateEmailSend`, restricted to the
fields its callers (`trackEmailOpen`, `trackEmailClick`) pass; a `none` field
is absent from the update object. -/
structure EmailSendUpdate where
  openedAt : Option Int := none
  clickedAt : Option Int := none
deriving DecidableEq

/-- `MemStorage.updateEmailSend`: if the send exists, spread the update over
it, then emit an `email_open` analytics event when the update carries an
`openedAt` value and an `email_click` event when it carries a `clickedAt`
value (the source's truthiness checks on `updateData.openedAt` /
`updateData.clickedAt`; a `Date` object is always truthy). A missing id
leaves the store unchanged. -/
def updateEmailSend (st : Storage) (id : EntityId) (upd : EmailSendUpdate)
    (now : Int) : Storage :=
  match st.emailSends.find? (fun s => s.id == id) with
  | none => st
  | some send =>
    let updatedSend : EmailSend :=
      { send with
        openedAt := match upd.openedAt with | some t => some t | none => send.openedAt,
        clickedAt := match upd.clickedAt with | some t => some t | none => send.clickedAt }
    let st1 : Storage :=
      { st with emailSends := st.emailSends.map (fun s => if s.id == id then updatedSend else s) }
    let st2 : Storage :=
      match upd.openedAt with
      | some _ => (createAnalyticsEvent st1
          { eventType := "email_open", attendeeId := some send.attendeeId,
            campaignId := some send.campaignId } now).1
      | none => st1
    match upd.clickedAt with
    | some _ => (createAnalyticsEvent st2
        { eventType := "email_click", attendeeId := some send.attendeeId,
          campaignId := some send.campaignId } now).1
    | none => st2

/-! ## Email service (`EmailService` in `schedulerService.ts`). -/

/-- Result record of `EmailService.sendBulkCampaign`. -/
structure BulkResult where
  sent : Nat
  failed : Nat
  errors : List String
deriving DecidableEq

/-- Placeholder replaced with `attendee.name`. -/
def patAttendeeName : String := "\x7b\x7battendeeName\x7d\x7d"

/-- Placeholder replaced with `attendee.email`. -/
def patAttendeeEmail : String := "\x7b\x7battendeeEmail\x7d\x7d"

/-- Placeholder replaced with `attendee.company || ""`. -/
def patAttendeeCompany : String := "\x7b\x7battendeeCompany\x7d\x7d"

/-- Placeholder replaced with `attendee.jobTitle || ""`. -/
def patAttendeeJobTitle : String := "\x7b\x7battendeeJobTitle\x7d\x7d"

/-- Placeholder replaced with `event.title`. -/
def patEventTitle : String := "\x7b\x7beventTitle\x7d\x7d"

/-- Placeholder replaced with `event.description || ""`. -/
def patEventDescription : String := "\x7b\x7beventDescription\x7d\x7d"

/-- Placeholder replaced with the locale-formatted event date. -/
def patEventDate : String := "\x7b\x7beventDate\x7d\x7d"

/-- Placeholder replaced with the locale-formatted event time. -/
def patEventTime : String := "\x7b\x7beventTime\x7d\x7d"

/-- Placeholder replaced with `event.location || "Virtual"`. -/
def patEventLocation : String := "\x7b\x7beventLocation\x7d\x7d"

/-- Placeholder replaced with the human-readable time until the event. -/
def patTimeUntil : String := "\x7b\x7btimeUntil\x7d\x7d"

/-- Placeholder replaced with the static resource-links text. -/
def patResourceLinks : String := "\x7b\x7bresourceLinks\x7d\x7d"

/-- Placeholder replaced with the static feedback link. -/
def patFeedbackLink : String := "\x7b\x7bfeedbackLink\x7d\x7d"

/-- The twelve placeholders `EmailService.applyTemplateVariables` rewrites
(event placeholders only when an event is supplied). -/
def recognizedPatterns : List String :=
  [patAttendeeName, patAttendeeEmail, patAttendeeCompany, patAttendeeJobTitle,
   patEventTitle, patEventDescription, patEventDate, patEventTime,
   patEventLocation, patTimeUntil, patResourceLinks, patFeedbackLink]

/-- `EmailService.calculateTimeUntil`: human-readable time from `now` to
`eventDate`. Integer division and modulus on a positive difference match
JS `Math.floor` and `%`. -/
def calculateTimeUntil (eventDate now : Int) : String :=
  let diff := eventDate - now
  if diff ≤ 0 then "now"
  else
    let days := diff / (1000 * 60 * 60 * 24)
    let hours := (diff % (1000 * 60 * 60 * 24)) / (1000 * 60 * 60)
    if days > 0 then
      toString days ++ " day" ++ (if days > 1 then "s" else "")
    else if hours > 0 then
      toString hours ++ " hour" ++ (if hours > 1 then "s" else "")
    else "less than an hour"

/-- `EmailService.applyTemplateVariables`: rewrite attendee placeholders,
then (when an event is given) event placeholders, then the two static
placeholder links, in the source's order. -/
def applyTemplateVariables (env : Env) (template : String) (attendee : Attendee)
    (event : Option Event) : String :=
  let result := template
  let result := replaceStr patAttendeeName attendee.name result
  let result := replaceStr patAttendeeEmail attendee.email result
  let result := replaceStr patAttendeeCompany (attendee.company.getD "") result
  let result := replaceStr patAttendeeJobTitle (attendee.jobTitle.getD "") result
  let result :=
    match event with
    | some ev =>
      let r := replaceStr patEventTitle ev.title result
      let r := replaceStr patEventDescription (ev.description.getD "") r
      let r := replaceStr patEventDate (env.formatDate ev.startDate) r
      let r := replaceStr patEventTime (env.formatTime ev.startDate) r
      let r := replaceStr patEventLocation (ev.location.getD "Virtual") r
      let r := replaceStr patTimeUntil (calculateTimeUntil ev.startDate env.now) r
      r
    | none => result
  let result := replaceStr patResourceLinks
    "Resource links will be available after the event" result
  let result := replaceStr patFeedbackLink "https://eventboost.com/feedback" result
  result

/-- `EmailService.getTargetAttendees`: start from all attendees, restrict to
the linked event's registrants when the campaign names an event, then apply
the targeting filters (interest overlap, inclusive engagement-score range,
attendance history) exactly as the source's truthiness-guarded blocks do. -/
def getTargetAttendees (st : Storage) (campaign : EmailCampaign) : List Attendee :=
  let attendees := getAttendees st
  let attendees :=
    match campaign.eventId with
    | some eid =>
      let registrations := getEventRegistrations st eid
      let registeredAttendeeIds := registrations.map (fun r => r.attendeeId)
      attendees.filter (fun a => registeredAttendeeIds.contains a.id)
    | none => attendees
  match campaign.targetAudience with
  | none => attendees
  | some ta =>
    let attendees :=
      match ta.interests with
      | some ints =>
        if ints.length > 0 then
          attendees.filter (fun attendee =>
            (attendee.interests.getD []).any (fun interest => ints.contains interest))
        else attendees
      | none => attendees
    let attendees :=
      match ta.engagementScore with
      | some range =>
        attendees.filter (fun attendee =>
          range.min ≤ attendee.engagementScore.getD 0 &&
          attendee.engagementScore.getD 0 ≤ range.max)
      | none => attendees
    let attendees :=
      match ta.attendanceHistory with
      | some hist =>
        if hist ≠ "all" then
          match campaign.eventId with
          | some eid =>
            let registrations := getEventRegistrations st eid
            let attendedSet :=
              (registrations.filter (fun r =>
                if hist == "attended" then r.attended.getD false
                else !(r.attended.getD false))).map (fun r => r.attendeeId)
            attendees.filter (fun a => attendedSet.contains a.id)
          | none => attendees
        else attendees
      | none => attendees
    attendees

/-- The subject/content locals of `EmailService.sendCampaignEmail`: look up
template and event, take the personalization capability's subject/content
when a template exists and the capability succeeds (on a throw the catch
keeps the campaign's own subject/content), then rewrite placeholders in
both. -/
def campaignEmailContent (env : Env) (st : Storage) (campaign : EmailCampaign)
    (attendee : Attendee) : String × String :=
  let template := campaign.templateId.bind (getEmailTemplate st)
  let event := campaign.eventId.bind (getEvent st)
  let subjectContent :=
    match template with
    | some t =>
      match env.personalize attendee event t with
      | some personalized => personalized
      | none => (campaign.subject, campaign.content)
    | none => (campaign.subject, campaign.content)
  (applyTemplateVariables env subjectContent.1 attendee event,
   applyTemplateVariables env subjectContent.2 attendee event)

/-- The provider call of `EmailService.sendCampaignEmail`:
`this.provider.sendEmail(attendee.email, subject, content)`. -/
def campaignEmailSuccess (env : Env) (st : Storage) (campaign : EmailCampaign)
    (attendee : Attendee) : Bool :=
  env.sendEmail attendee.email (campaignEmailContent env st campaign attendee).1
    (campaignEmailContent env st campaign attendee).2

/-- `EmailService.sendCampaignEmail`: render via `campaignEmailContent`, call
the provider; on success create the Send record and refresh the attendee's
`lastActivity` (the update object carries only `lastActivity`, which
`updateAttendee` refreshes anyway), on failure leave the store untouched.
Returns the provider's success boolean. -/
def sendCampaignEmail (env : Env) (st : Storage) (campaign : EmailCampaign)
    (attendee : Attendee) : Storage × Bool :=
  let success := campaignEmailSuccess env st campaign attendee
  if success then
    let st := (createEmailSend st
      { campaignId := campaign.id, attendeeId := attendee.id, sentAt := env.now,
        openedAt := none, clickedAt := none, bounced := some false,
        unsubscribed := some false }).1
    let st := updateAttendee st attendee.id (fun a => a) env.now
    (st, true)
  else (st, false)

/-- One per-recipient step of `EmailService.sendBulkCampaign`'s send loop:
on success increment `sent`, on failure increment `failed` and append the
per-recipient error string. -/
def sendBulkStep (env : Env) (campaign : EmailCampaign)
    (acc : Storage × Nat × Nat × List String) (attendee : Attendee) :
    Storage × Nat × Nat × List String :=
  match sendCampaignEmail env acc.1 campaign attendee with
  | (st, true) => (st, acc.2.1 + 1, acc.2.2.1, acc.2.2.2)
  | (st, false) =>
    (st, acc.2.1, acc.2.2.1 + 1, acc.2.2.2 ++ ["Failed to send to " ++ attendee.email])

/-- `EmailService.sendBulkCampaign`. The `Except` return type records the
throw/reject behavior of the async source function: no branch throws — a
missing campaign is reported in-band as `sent=0, failed=1` with a single
error string, before any side effect. Otherwise the audience is resolved
once, each recipient is processed (the source batches ten at a time with a
pacing delay; counters, error strings and created records accumulate
commutatively, so the left fold is a faithful serialization), and finally
the campaign is unconditionally marked `sent` with `sentAt = now`. -/
def sendBulkCampaign (env : Env) (st : Storage) (campaignId : EntityId) :
    Except String (Storage × BulkResult) :=
  match getEmailCampaign st campaignId with
  | none => .ok (st, { sent := 0, failed := 1, errors := ["Campaign not found"] })
  | some campaign =>
    let attendees := getTargetAttendees st campaign
    let folded := attendees.foldl (sendBulkStep env campaign) (st, 0, 0, [])
    let st1 := updateEmailCampaign folded.1 campaignId
      { status := some "sent", sentAt := some env.now }
    .ok (st1, { sent := folded.2.1, failed := folded.2.2.1, errors := folded.2.2.2 })

/-- `EmailService.trackEmailOpen`: delegates to the store's `updateEmailSend`
with a fresh `openedAt` timestamp. -/
def trackEmailOpen (st : Storage) (emailSendId : EntityId) (now : Int) : Storage :=
  updateEmailSend st emailSendId { openedAt := some now } now

/-- `EmailService.trackEmailClick`: delegates to the store's
`updateEmailSend` with a fresh `clickedAt` timestamp. -/
def trackEmailClick (st : Storage) (emailSendId : EntityId) (now : Int) : Storage :=
  updateEmailSend st emailSendId { clickedAt := some now } now

/-! ## AI engagement scoring (`AIPersonalizationService.calculateEngagementScore`). -/

/-- Activity counts the scheduler derives from an attendee's recent analytics
events (each one a `filter(...).length`, hence a natural number). -/
structure ActivityCounts where
  emailOpens : Nat
  emailClicks : Nat
  eventsAttended : Nat
  registrationFrequency : Nat
deriving DecidableEq

/-- Parsed JSON response of the external scoring capability: the `score`
field may be absent. Numeric JSON scores are modeled as integers;
`Math.round` is the identity on integers and cannot move a value across the
`[0, 100]` clamp. -/
structure ScoreResp where
  score : Option Int
deriving DecidableEq

/-- JS `result.score || 50`: an absent or zero (falsy) score becomes 50. -/
def jsScoreOrFifty : Option Int → Int
  | none => 50
  | some v => if v == 0 then 50 else v

/-- `AIPersonalizationService.calculateEngagementScore`. The external
capability's outcome is the `capResult` argument (`none` = the call threw
and the catch block runs). The try branch clamps the capability's score to
`[0, 100]`; the catch branch is the deterministic fallback
`clamp(baseScore + opens*2 + clicks*5 + attended*10, 0, 100)` with
`baseScore = attendee.engagementScore || 0` (`registrationFrequency` is not
part of the formula). -/
def calculateEngagementScore (capResult : Option ScoreResp) (attendee : Attendee)
    (recentActivity : ActivityCounts) : Int :=
  match capResult with
  | some result => max 0 (min 100 (jsScoreOrFifty result.score))
  | none =>
    let baseScore := attendee.engagementScore.getD 0
    let activityBonus : Int :=
      (recentActivity.emailOpens * 2 : Nat) + (recentActivity.emailClicks * 5 : Nat)
        + (recentActivity.eventsAttended * 10 : Nat)
    max 0 (min 100 (baseScore + activityBonus))

/-! ## Scheduler (`SchedulerService`). -/

/-- Hours from `now` until the event starts, as in
`SchedulerService.sendEventReminders`:
`(eventDate.getTime() - now.getTime()) / (1000 * 60 * 60)`, an exact
rational. -/
def hoursUntilEvent (event : Event) (now : Int) : ℚ :=
  ((event.startDate - now : Int) : ℚ) / (1000 * 60 * 60)

/-- The reminder thresholds `[24, 2, 0.5]` (hours before the event). -/
def reminderTimes : List ℚ := [24, 2, 0.5]

/-- The per-threshold firing test of `SchedulerService.sendEventReminders`:
`hoursUntilEvent <= reminderHours && hoursUntilEvent > reminderHours - 1`. -/
def shouldSendReminder (event : Event) (now : Int) (reminderHours : ℚ) : Bool :=
  decide (hoursUntilEvent event now ≤ reminderHours) &&
    decide (hoursUntilEvent event now > reminderHours - 1)

/-- The dispatch decisions of one `SchedulerService.sendEventReminders` tick
for one event: the thresholds for which `sendEventReminder` is invoked. The
outer loop skips events whose status is neither `published` nor `live`;
the inner loop walks `reminderTimes` and fires where `shouldSendReminder`
holds. -/
def reminderThresholdsFired (event : Event) (now : Int) : List ℚ :=
  if event.status == some "published" || event.status == some "live" then
    reminderTimes.filter (fun reminderHours => shouldSendReminder event now reminderHours)
  else []

/-- `SchedulerService.cleanupOldData`: computes `cutoffDate = now - 90 days`
(the source's `setDate(getDate() - 90)` calendar arithmetic, expressed in
milliseconds), filters the analytics events with `timestamp < cutoffDate`
(strict), logs their count, and deletes nothing — the store is returned
unchanged alongside the identified old events. An empty identified set takes
the same path as a non-empty one. -/
def cleanupOldData (st : Storage) (now : Int) : Storage × List AnalyticsEvent :=
  let cutoffDate := now - 90 * (24 * 60 * 60 * 1000)
  let allEvents := st.analyticsEvents
  let oldEvents := allEvents.filter (fun event => decide (event.timestamp < cutoffDate))
  (st, oldEvents)

/-! ## The core's attendee-mutating operations, for the reachability
invariant on engagement scores. Outside this subsystem the route layer can
call `updateAttendee` with an arbitrary request body; the spec scopes the
claim to the core's own operations, which are exactly the three below. -/

/-- One core operation that touches the attendees map:
  - `createAtt`: `MemStorage.createAttendee` (first registration or explicit
    add);
  - `recomputeScore`: one attendee's step of
    `SchedulerService.updateEngagementScores` — derive activity counts,
    invoke the scoring capability (whose outcome is carried in the
    operation), and persist `calculateEngagementScore`'s result via
    `updateAttendeeEngagement`;
  - `touchActivity`: the dispatcher's
    `updateAttendee(id, { lastActivity: new Date() })` after a successful
    send. -/
inductive CoreOp where
  | createAtt (d : InsertAttendee)
  | recomputeScore (id : EntityId) (act : ActivityCounts) (capResult : Option ScoreResp)
  | touchActivity (id : EntityId)
deriving DecidableEq

/-- Apply one core operation to the store at time `now`. For
`recomputeScore` the scheduler computes the new score from the stored
attendee (`updateEngagementScores` fetches the attendee before scoring); an
unknown id is a no-op, as in `updateAttendeeEngagement`. -/
def applyCoreOp (st : Storage) (now : Int) : CoreOp → Storage
  | .createAtt d => (createAttendee st d now).1
  | .recomputeScore id act capResult =>
    match st.attendees.find? (fun a => a.id == id) with
    | some attendee =>
      updateAttendeeEngagement st id (calculateEngagementScore capResult attendee act) now
    | none => st
  | .touchActivity id => updateAttendee st id (fun a => a) now

/-- States of the store reachable through the core's attendee-mutating
operations, starting from any store with no attendees (the `MemStorage`
constructor seeds only email templates). -/
inductive ReachableCore : Storage → Prop where
  | start (st : Storage) : st.attendees = [] → ReachableCore st
  | step (st : Storage) (now : Int) (op : CoreOp) :
      ReachableCore st → ReachableCore (applyCoreOp st now op)

/-! ## Concrete fixtures used by witnesses and counterexamples. -/

/-- A store with no records, as after `new MemStorage()` minus the three
seeded templates (which play no role in the facts checked on it). -/
def emptyStorage : Storage :=
  { events := [], attendees := [], eventRegistrations := [], emailCampaigns := [],
    emailTemplates := [], emailSends := [], analyticsEvents := [], nextId := 0 }

/-- An environment whose provider accepts every email and whose
personalization capability always throws. -/
def envAllOk : Env :=
  { now := 0, sendEmail := fun _ _ _ => true, personalize := fun _ _ _ => none,
    formatDate := fun _ => "", formatTime := fun _ => "" }

/-- Compact attendee constructor for fixtures. -/
def mkAttendee (id : EntityId) (email name : String) (score : Option Int) : Attendee :=
  { id := id, email := email, name := name, company := none, jobTitle := none,
    interests := none, engagementScore := score, registrationDate := 0,
    lastActivity := 0, preferences := none }

/-! ## C10: tracking an unknown send id. -/

/-- C10: calling record-open or record-click with a sendId for which no Send
record exists completes normally as a silent no-op — the store is returned
unchanged (so no Send record is created or modified and no AnalyticsEvent is
emitted), and the operations are total, so no error is raised (the source's
`updateEmailSend` simply skips the write when `get(id)` is undefined). -/
theorem trackEmail_missing_send_is_noop (st : Storage) (id : EntityId) (now : Int)
    (h : st.emailSends.find? (fun s => s.id == id) = none) :
    trackEmailOpen st id now = st ∧ trackEmailClick st id now = st := by
  constructor <;> simp only [trackEmailOpen, trackEmailClick, updateEmailSend, h]

/-- Witness for C10: the empty store has no send with id 5, and both tracking
calls leave it unchanged. -/
theorem trackEmail_missing_send_is_noop_witness :
    emptyStorage.emailSends.find? (fun s => s.id == 5) = none ∧
    (trackEmailOpen emptyStorage 5 7 = emptyStorage ∧
      trackEmailClick emptyStorage 5 7 = emptyStorage) :=
  ⟨by decide, trackEmail_missing_send_is_noop emptyStorage 5 7 (by decide)⟩

/-! ## C6: the fallback engagement-score formula. -/

/-- C6: when the external scoring capability fails (`capResult = none`), the
engagement score equals
`clamp(currentScore + opens*2 + clicks*5 + attended*10, 0, 100)`; the
fallback is monotonically non-decreasing in opens, clicks and attendance,
always lies in `[0, 100]`, and a current score of 95 with 2 clicks yields
100, not 105. -/
theorem engagementScore_fallback_formula :
    (∀ (attendee : Attendee) (act : ActivityCounts),
      calculateEngagementScore none attendee act =
        max 0 (min 100 (attendee.engagementScore.getD 0 +
          ((act.emailOpens * 2 + act.emailClicks * 5 + act.eventsAttended * 10 : Nat) : Int)))) ∧
    (∀ (attendee : Attendee) (act act' : ActivityCounts),
      act.emailOpens ≤ act'.emailOpens → act.emailClicks ≤ act'.emailClicks →
      act.eventsAttended ≤ act'.eventsAttended →
      calculateEngagementScore none attendee act ≤ calculateEngagementScore none attendee act') ∧
    (∀ (attendee : Attendee) (act : ActivityCounts),
      0 ≤ calculateEngagementScore none attendee act ∧
        calculateEngagementScore none attendee act ≤ 100) ∧
    (∀ (attendee : Attendee) (act : ActivityCounts),
      attendee.engagementScore = some 95 → act.emailOpens = 0 → act.emailClicks = 2 →
      act.eventsAttended = 0 → calculateEngagementScore none attendee act = 100) := by
  refine ⟨?_, ?_, ?_, ?_⟩
  · intro attendee act
    simp only [calculateEngagementScore]
    push_cast
    ring_nf
  · intro attendee act act' ho hc ha
    simp only [calculateEngagementScore]
    refine max_le_max le_rfl (min_le_min le_rfl ?_)
    have hb : ((act.emailOpens * 2 : Nat) : Int) + ((act.emailClicks * 5 : Nat) : Int)
        + ((act.eventsAttended * 10 : Nat) : Int)
        ≤ ((act'.emailOpens * 2 : Nat) : Int) + ((act'.emailClicks * 5 : Nat) : Int)
        + ((act'.eventsAttended * 10 : Nat) : Int) := by
      push_cast
      omega
    omega
  · intro attendee act
    constructor
    · exact le_max_left 0 _
    · exact max_le (by norm_num) (min_le_left _ _)
  · intro attendee act hs ho hc ha
    simp only [calculateEngagementScore, hs, ho, hc, ha]
    decide

/-- Witness for C6: a concrete attendee at score 95 with two recent clicks is
clamped to 100, and increasing clicks from 0 to 2 does not decrease the
fallback score. -/
theorem engagementScore_fallback_formula_witness :
    (0 : Nat) ≤ 0 ∧ (0 : Nat) ≤ 2 ∧ (0 : Nat) ≤ 0 ∧
    (mkAttendee 1 "a@x" "A" (some 95)).engagementScore = some 95 ∧
    calculateEngagementScore none (mkAttendee 1 "a@x" "A" (some 95))
        { emailOpens := 0, emailClicks := 0, eventsAttended := 0, registrationFrequency := 0 }
      ≤ calculateEngagementScore none (mkAttendee 1 "a@x" "A" (some 95))
        { emailOpens := 0, emailClicks := 2, eventsAttended := 0, registrationFrequency := 0 } ∧
    calculateEngagementScore none (mkAttendee 1 "a@x" "A" (some 95))
        { emailOpens := 0, emailClicks := 2, eventsAttended := 0, registrationFrequency := 0 } = 100 :=
  ⟨le_rfl, by decide, le_rfl, rfl,
    engagementScore_fallback_formula.2.1 _ _ _ le_rfl (by decide) le_rfl,
    engagementScore_fallback_formula.2.2.2 _ _ rfl rfl rfl rfl⟩

/-! ## C2: the weekly retention-pruning trigger. -/

/-- A 91-day-old analytics event used to refute the deletion claim. -/
def evRetention : AnalyticsEvent :=
  { id := 0, eventType := "registration", attendeeId := none, eventId := none,
    campaignId := none, timestamp := -(91 * 86400000) }

/-- A store holding only the 91-day-old analytics event. -/
def stRetention : Storage := { emptyStorage with analyticsEvents := [evRetention] }

/-- Counterexample for C2: at `now = 0` the stored event is 91 days old —
strictly older than the 90-day cutoff — yet the weekly pruning trigger
returns the store unchanged and the event is still present afterwards, so
the trigger does not hard-delete old AnalyticsEvents. -/
theorem cleanupOldData_does_not_delete_counterexample :
    evRetention.timestamp < 0 - 90 * 86400000 ∧
    (cleanupOldData stRetention 0).1 = stRetention ∧
    evRetention ∈ (cleanupOldData stRetention 0).1.analyticsEvents := by
  refine ⟨by decide, rfl, ?_⟩
  decide

/-- C2 (amended): the weekly retention-pruning trigger identifies exactly the
AnalyticsEvents whose timestamp is strictly older than `now - 90 days` — an
event 90 days and 1 second old is identified, an event 89 days old is not —
but it deletes nothing: the store is returned unchanged (the source only
logs the count of old events), and an empty identified set takes the same
normal path as a non-empty one. -/
theorem cleanupOldData_identifies_without_deleting :
    (∀ (st : Storage) (now : Int),
      (cleanupOldData st now).1 = st ∧
      (cleanupOldData st now).2 = st.analyticsEvents.filter
        (fun event => decide (event.timestamp < now - 90 * (24 * 60 * 60 * 1000)))) ∧
    (∀ (st : Storage) (now : Int) (event : AnalyticsEvent),
      event ∈ st.analyticsEvents →
      event.timestamp = now - (90 * 86400000 + 1000) →
      event ∈ (cleanupOldData st now).2) ∧
    (∀ (st : Storage) (now : Int) (event : AnalyticsEvent),
      event.timestamp = now - 89 * 86400000 →
      event ∉ (cleanupOldData st now).2) := by
  refine ⟨fun st now => ⟨rfl, rfl⟩, ?_, ?_⟩
  · intro st now event hmem hts
    simp only [cleanupOldData, List.mem_filter, decide_eq_true_eq]
    exact ⟨hmem, by omega⟩
  · intro st now event hts
    simp only [cleanupOldData, List.mem_filter, decide_eq_true_eq]
    intro hcontra
    omega

/-- An analytics event exactly 90 days and 1 second old at `now = 0`. -/
def evJustOver90d : AnalyticsEvent :=
  { id := 0, eventType := "registration", attendeeId := none, eventId := none,
    campaignId := none, timestamp := 0 - (90 * 86400000 + 1000) }

/-- An analytics event exactly 89 days old at `now = 0`. -/
def evAt89d : AnalyticsEvent :=
  { id := 1, eventType := "registration", attendeeId := none, eventId := none,
    campaignId := none, timestamp := 0 - 89 * 86400000 }

/-- A store holding the two boundary analytics events. -/
def stBoundary : Storage :=
  { emptyStorage with analyticsEvents := [evJustOver90d, evAt89d] }

/-- Witness for C2 (amended): at `now = 0`, the event 90 days and 1 second
old is identified by the trigger while the 89-day-old one is not, and the
store holding both is returned unchanged. -/
theorem cleanupOldData_identifies_without_deleting_witness :
    evJustOver90d ∈ stBoundary.analyticsEvents ∧
    (cleanupOldData stBoundary 0).1 = stBoundary ∧
    evJustOver90d ∈ (cleanupOldData stBoundary 0).2 ∧
    evAt89d ∉ (cleanupOldData stBoundary 0).2 :=
  ⟨by decide,
   (cleanupOldData_identifies_without_deleting.1 stBoundary 0).1,
   cleanupOldData_identifies_without_deleting.2.1 stBoundary 0 _ (by decide) rfl,
   cleanupOldData_identifies_without_deleting.2.2 stBoundary 0 _ rfl⟩

/-! ## C3: a missing campaign at dispatch time. -/

/-- C3 (amended): `sendBulkCampaign` on an unknown campaignId does not throw
or reject — it returns normally, in-band, with `sent = 0`, `failed = 1` and
the single error string `"Campaign not found"`, and it has no side effects:
the store is returned exactly as given (no Send records, no status change).
Per-recipient failures are likewise aggregated and returned as data; no
branch of the function throws. -/
theorem sendBulkCampaign_missing_campaign_in_band (env : Env) (st : Storage)
    (campaignId : EntityId) (h : getEmailCampaign st campaignId = none) :
    sendBulkCampaign env st campaignId =
      Except.ok (st, { sent := 0, failed := 1, errors := ["Campaign not found"] }) := by
  simp only [sendBulkCampaign, h]

/-- Witness for C3 (amended): the empty store has no campaign 0, and the call
returns the in-band not-found result with the store unchanged. -/
theorem sendBulkCampaign_missing_campaign_in_band_witness :
    getEmailCampaign emptyStorage 0 = none ∧
    sendBulkCampaign envAllOk emptyStorage 0 =
      Except.ok (emptyStorage, { sent := 0, failed := 1, errors := ["Campaign not found"] }) :=
  ⟨rfl, sendBulkCampaign_missing_campaign_in_band envAllOk emptyStorage 0 rfl⟩

/-- Counterexample for C3: the claim says a missing campaign makes the whole
call throw/reject; on the empty store the call instead returns an ordinary
`Except.ok` value carrying the failure as data, so no rejection occurs. -/
theorem sendBulkCampaign_missing_campaign_does_not_throw :
    (sendBulkCampaign envAllOk emptyStorage 0).isOk = true ∧
    sendBulkCampaign envAllOk emptyStorage 0 =
      Except.ok (emptyStorage, { sent := 0, failed := 1, errors := ["Campaign not found"] }) :=
  ⟨rfl, rfl⟩

/-! ## C4: open/click tracking is not idempotent. -/

/-- An existing send whose `openedAt` is already set (at time 5). -/
def sendOpened : EmailSend :=
  { id := 1, campaignId := 2, attendeeId := 3, sentAt := 0, openedAt := some 5,
    clickedAt := some 5, bounced := some false, unsubscribed := some false }

/-- A store holding the already-opened send. -/
def stOpened : Storage := { emptyStorage with emailSends := [sendOpened], nextId := 10 }

/-- Counterexample for C4: the claim says a record-open call on an
already-set `openedAt` is a no-op that emits no AnalyticsEvent. On a send
whose `openedAt` is 5, a second record-open at time 9 overwrites the
timestamp to 9 and appends a fresh `email_open` AnalyticsEvent, and a second
record-click likewise overwrites `clickedAt` and appends an `email_click`
event. -/
theorem trackEmail_not_idempotent_counterexample :
    sendOpened.openedAt = some 5 ∧
    (trackEmailOpen stOpened 1 9).emailSends.find? (fun s => s.id == 1) =
      some { sendOpened with openedAt := some 9 } ∧
    (trackEmailOpen stOpened 1 9).analyticsEvents.length =
      stOpened.analyticsEvents.length + 1 ∧
    (trackEmailClick stOpened 1 9).emailSends.find? (fun s => s.id == 1) =
      some { sendOpened with clickedAt := some 9 } ∧
    (trackEmailClick stOpened 1 9).analyticsEvents.length =
      stOpened.analyticsEvents.length + 1 := by
  refine ⟨rfl, ?_, ?_, ?_, ?_⟩ <;> decide

/-- C4 (amended): record-open and record-click on an existing send are not
idempotent: every call unconditionally overwrites the corresponding
timestamp (`openedAt`/`clickedAt`) with the current time — whether or not it
was already set — and emits one AnalyticsEvent (`email_open`/`email_click`)
per call, not only on the first unset-to-set transition. A repeated call is
not an error, but it is an overwriting update, not a no-op. -/
theorem trackEmail_overwrites_and_emits_every_call (st : Storage) (id : EntityId)
    (now : Int) (send : EmailSend)
    (h : st.emailSends.find? (fun s => s.id == id) = some send) :
    trackEmailOpen st id now =
      { st with
        emailSends := st.emailSends.map (fun s =>
          if s.id == id then { send with openedAt := some now } else s),
        analyticsEvents := st.analyticsEvents ++
          [{ id := st.nextId, eventType := "email_open", attendeeId := some send.attendeeId,
             eventId := none, campaignId := some send.campaignId, timestamp := now }],
        nextId := st.nextId + 1 } ∧
    trackEmailClick st id now =
      { st with
        emailSends := st.emailSends.map (fun s =>
          if s.id == id then { send with clickedAt := some now } else s),
        analyticsEvents := st.analyticsEvents ++
          [{ id := st.nextId, eventType := "email_click", attendeeId := some send.attendeeId,
             eventId := none, campaignId := some send.campaignId, timestamp := now }],
        nextId := st.nextId + 1 } := by
  constructor <;>
    simp only [trackEmailOpen, trackEmailClick, updateEmailSend, h, createAnalyticsEvent]

/-- Witness for C4 (amended): applied to the already-opened send, so the
second record-open really lands on a set timestamp and still overwrites and
emits. -/
theorem trackEmail_overwrites_and_emits_every_call_witness :
    stOpened.emailSends.find? (fun s => s.id == 1) = some sendOpened ∧
    trackEmailOpen stOpened 1 9 =
      { stOpened with
        emailSends := stOpened.emailSends.map (fun s =>
          if s.id == 1 then { sendOpened with openedAt := some 9 } else s),
        analyticsEvents := stOpened.analyticsEvents ++
          [{ id := stOpened.nextId, eventType := "email_open",
             attendeeId := some sendOpened.attendeeId, eventId := none,
             campaignId := some sendOpened.campaignId, timestamp := 9 }],
        nextId := stOpened.nextId + 1 } :=
  ⟨by decide, (trackEmail_overwrites_and_emits_every_call stOpened 1 9 sendOpened (by decide)).1⟩

/-! ## C5: reminder windows. -/

/-- Compact event constructor for fixtures. -/
def mkEvent (id : EntityId) (startDate : Int) (status : Option String) : Event :=
  { id := id, title := "E", description := none, startDate := startDate, endDate := none,
    timezone := none, maxAttendees := none, isPublic := none, status := status,
    imageUrl := none, location := none, tags := none, createdAt := 0, updatedAt := 0 }

/-- A published event starting in exactly 24 hours from time 0. -/
def evStartsIn24h : Event := mkEvent 1 (24 * 3600000) (some "published")

/-- The same published event checked one hour later (23 hours out). -/
def evStartsIn23h : Event := mkEvent 1 (23 * 3600000) (some "published")

/-- C5: on a reminder tick, for every Event with status `published` or
`live`, the reminder for threshold T ∈ {24, 2, 0.5} fires iff
hours-until-start lies in the half-open interval (T − 1, T]; concretely, an
event starting in exactly 24.0 hours fires the 24-hour reminder, and the
same event checked one hour later (23.0 hours out) does not re-fire it. -/
theorem reminder_fires_iff_in_window :
    (∀ (event : Event) (now : Int) (reminderHours : ℚ),
      reminderHours ∈ reminderThresholdsFired event now ↔
        ((event.status = some "published" ∨ event.status = some "live") ∧
          reminderHours ∈ reminderTimes ∧
          reminderHours - 1 < hoursUntilEvent event now ∧
          hoursUntilEvent event now ≤ reminderHours)) ∧
    (24 : ℚ) ∈ reminderThresholdsFired evStartsIn24h 0 ∧
    (24 : ℚ) ∉ reminderThresholdsFired evStartsIn23h 0 := by
  have hiff : ∀ (event : Event) (now : Int) (reminderHours : ℚ),
      reminderHours ∈ reminderThresholdsFired event now ↔
        ((event.status = some "published" ∨ event.status = some "live") ∧
          reminderHours ∈ reminderTimes ∧
          reminderHours - 1 < hoursUntilEvent event now ∧
          hoursUntilEvent event now ≤ reminderHours) := by
    intro event now T
    simp only [reminderThresholdsFired]
    by_cases hs : (event.status == some "published" || event.status == some "live") = true
    · rw [if_pos hs]
      simp only [List.mem_filter, shouldSendReminder, Bool.and_eq_true, decide_eq_true_eq,
        gt_iff_lt]
      have hs2 : event.status = some "published" ∨ event.status = some "live" := by
        have h2 := hs
        simp only [Bool.or_eq_true, beq_iff_eq] at h2
        exact h2
      tauto
    · rw [if_neg hs]
      simp only [List.not_mem_nil, false_iff, not_and]
      intro hstat
      exfalso
      apply hs
      rcases hstat with h | h <;> simp [h]
  refine ⟨hiff, ?_, ?_⟩
  · rw [hiff]
    refine ⟨Or.inl rfl, by simp [reminderTimes], ?_, ?_⟩ <;>
      · simp only [hoursUntilEvent, evStartsIn24h, mkEvent]
        norm_num
  · rw [hiff]
    intro hcon
    have := hcon.2.2.2
    simp only [hoursUntilEvent, evStartsIn23h, mkEvent] at this
    have h23 : ((23 * 3600000 - 0 : Int) : ℚ) / (1000 * 60 * 60) = 23 := by norm_num
    rw [h23] at this
    have := hcon.2.2.1
    simp only [hoursUntilEvent, evStartsIn23h, mkEvent, h23] at this
    norm_num at this

/-- Witness for C5: the window characterization applied at the concrete
24-hours-out event and threshold 24, together with the fired membership it
yields there. -/
theorem reminder_fires_iff_in_window_witness :
    ((24 : ℚ) ∈ reminderThresholdsFired evStartsIn24h 0 ↔
      ((evStartsIn24h.status = some "published" ∨ evStartsIn24h.status = some "live") ∧
        (24 : ℚ) ∈ reminderTimes ∧
        (24 : ℚ) - 1 < hoursUntilEvent evStartsIn24h 0 ∧
        hoursUntilEvent evStartsIn24h 0 ≤ 24)) ∧
    (24 : ℚ) ∈ reminderThresholdsFired evStartsIn24h 0 :=
  ⟨reminder_fires_iff_in_window.1 evStartsIn24h 0 24, reminder_fires_iff_in_window.2.1⟩

/-! ## C9: template rendering outside recognized placeholders. -/

/-- An unrecognized placeholder. -/
def patUnknownVar : String := "\x7b\x7bunknownVar\x7d\x7d"

/-- The spec's example input carrying only the unrecognized placeholder. -/
def unknownVarExample : String := "Hi \x7b\x7bunknownVar\x7d\x7d"

/-- C9: template rendering only rewrites the recognized placeholders — on any
input string in which none of the recognized `\x7b\x7b...\x7d\x7d` patterns
occurs (in particular any string with no such tokens at all), rendering is
the identity for every environment, attendee and optional event; and the
unrecognized placeholder `\x7b\x7bunknownVar\x7d\x7d` survives verbatim:
rendering the spec's example leaves the string unchanged, with the
placeholder still present as a substring. -/
theorem applyTemplateVariables_identity_outside_recognized :
    (∀ (env : Env) (attendee : Attendee) (event : Option Event) (s : String),
      (∀ p ∈ recognizedPatterns, ¬ p.toList <:+: s.toList) →
      applyTemplateVariables env s attendee event = s) ∧
    (∀ (env : Env) (attendee : Attendee) (event : Option Event),
      applyTemplateVariables env unknownVarExample attendee event = unknownVarExample) ∧
    patUnknownVar.toList <:+: unknownVarExample.toList := by
  have hid : ∀ (env : Env) (attendee : Attendee) (event : Option Event) (s : String),
      (∀ p ∈ recognizedPatterns, ¬ p.toList <:+: s.toList) →
      applyTemplateVariables env s attendee event = s := by
    intro env attendee event s h
    have h1 := h patAttendeeName (by simp [recognizedPatterns])
    have h2 := h patAttendeeEmail (by simp [recognizedPatterns])
    have h3 := h patAttendeeCompany (by simp [recognizedPatterns])
    have h4 := h patAttendeeJobTitle (by simp [recognizedPatterns])
    have h5 := h patEventTitle (by simp [recognizedPatterns])
    have h6 := h patEventDescription (by simp [recognizedPatterns])
    have h7 := h patEventDate (by simp [recognizedPatterns])
    have h8 := h patEventTime (by simp [recognizedPatterns])
    have h9 := h patEventLocation (by simp [recognizedPatterns])
    have h10 := h patTimeUntil (by simp [recognizedPatterns])
    have h11 := h patResourceLinks (by simp [recognizedPatterns])
    have h12 := h patFeedbackLink (by simp [recognizedPatterns])
    cases event with
    | none =>
      simp only [applyTemplateVariables]
      rw [replaceStr_no_occurrence _ _ _ h1, replaceStr_no_occurrence _ _ _ h2,
        replaceStr_no_occurrence _ _ _ h3, replaceStr_no_occurrence _ _ _ h4,
        replaceStr_no_occurrence _ _ _ h11, replaceStr_no_occurrence _ _ _ h12]
    | some ev =>
      simp only [applyTemplateVariables]
      rw [replaceStr_no_occurrence _ _ _ h1, replaceStr_no_occurrence _ _ _ h2,
        replaceStr_no_occurrence _ _ _ h3, replaceStr_no_occurrence _ _ _ h4,
        replaceStr_no_occurrence _ _ _ h5, replaceStr_no_occurrence _ _ _ h6,
        replaceStr_no_occurrence _ _ _ h7, replaceStr_no_occurrence _ _ _ h8,
        replaceStr_no_occurrence _ _ _ h9, replaceStr_no_occurrence _ _ _ h10,
        replaceStr_no_occurrence _ _ _ h11, replaceStr_no_occurrence _ _ _ h12]
  refine ⟨hid, ?_, by decide⟩
  intro env attendee event
  exact hid env attendee event unknownVarExample (by decide)

/-- Witness for C9: the identity part applied at a concrete placeholder-free
string, together with the rendered example evaluated for a concrete
environment and attendee. -/
theorem applyTemplateVariables_identity_outside_recognized_witness :
    (∀ p ∈ recognizedPatterns, ¬ p.toList <:+: "hello".toList) ∧
    applyTemplateVariables envAllOk "hello" (mkAttendee 1 "a@x" "A" (some 0)) none = "hello" ∧
    applyTemplateVariables envAllOk unknownVarExample (mkAttendee 1 "a@x" "A" (some 0)) none =
      unknownVarExample :=
  ⟨by decide,
   applyTemplateVariables_identity_outside_recognized.1 envAllOk
     (mkAttendee 1 "a@x" "A" (some 0)) none "hello" (by decide),
   applyTemplateVariables_identity_outside_recognized.2.1 envAllOk
     (mkAttendee 1 "a@x" "A" (some 0)) none⟩

/-! ## C7: the engagement-score invariant under the core's operations. -/

/-- Both branches of `calculateEngagementScore` clamp into `[0, 100]`. -/
theorem calculateEngagementScore_mem_range (capResult : Option ScoreResp)
    (attendee : Attendee) (act : ActivityCounts) :
    0 ≤ calculateEngagementScore capResult attendee act ∧
      calculateEngagementScore capResult attendee act ≤ 100 := by
  cases capResult with
  | none => exact ⟨le_max_left 0 _, max_le (by norm_num) (min_le_left _ _)⟩
  | some r => exact ⟨le_max_left 0 _, max_le (by norm_num) (min_le_left _ _)⟩

/-- C7: in every store reachable through the core's attendee-mutating
operations, every attendee's engagement score is a present integer in
`[0, 100]`: creation initializes it to 0, the score-update job overwrites it
only with `calculateEngagementScore`'s result — clamped on both the
external-capability and fallback paths — and the dispatcher's
last-activity refresh leaves it untouched. -/
theorem engagementScore_always_in_range (st : Storage) (h : ReachableCore st) :
    ∀ a ∈ st.attendees, ∃ s, a.engagementScore = some s ∧ 0 ≤ s ∧ s ≤ 100 := by
  induction h with
  | start st h0 =>
    intro a ha
    rw [h0] at ha
    cases ha
  | step st now op hr ih =>
    intro a ha
    cases op with
    | createAtt d =>
      simp only [applyCoreOp, createAttendee, List.mem_append, List.mem_singleton] at ha
      rcases ha with ha | rfl
      · exact ih a ha
      · exact ⟨0, rfl, le_rfl, by norm_num⟩
    | recomputeScore id act capResult =>
      simp only [applyCoreOp] at ha
      cases hfind : st.attendees.find? (fun a => a.id == id) with
      | none =>
        rw [hfind] at ha
        exact ih a ha
      | some att =>
        rw [hfind] at ha
        simp only [updateAttendeeEngagement, List.mem_map] at ha
        obtain ⟨b, hb, hba⟩ := ha
        by_cases hbid : (b.id == id) = true
        · rw [if_pos hbid] at hba
          subst hba
          exact ⟨_, rfl, (calculateEngagementScore_mem_range capResult att act).1,
            (calculateEngagementScore_mem_range capResult att act).2⟩
        · rw [if_neg hbid] at hba
          subst hba
          exact ih b hb
    | touchActivity id =>
      simp only [applyCoreOp, updateAttendee, List.mem_map] at ha
      obtain ⟨b, hb, hba⟩ := ha
      by_cases hbid : (b.id == id) = true
      · rw [if_pos hbid] at hba
        obtain ⟨s, hs, h0, h100⟩ := ih b hb
        subst hba
        exact ⟨s, hs, h0, h100⟩
      · rw [if_neg hbid] at hba
        subst hba
        exact ih b hb

/-- Insert payload for the C7 witness. -/
def insertAlice : InsertAttendee := { email := "alice@x", name := "Alice" }

/-- The store after creating one attendee from the empty store. -/
def stOneAttendee : Storage := applyCoreOp emptyStorage 0 (CoreOp.createAtt insertAlice)

/-- Witness for C7: one creation step from the empty store is reachable, and
the invariant holds on the resulting store. -/
theorem engagementScore_always_in_range_witness :
    ReachableCore stOneAttendee ∧
    ∀ a ∈ stOneAttendee.attendees, ∃ s, a.engagementScore = some s ∧ 0 ≤ s ∧ s ≤ 100 :=
  ⟨ReachableCore.step emptyStorage 0 (CoreOp.createAtt insertAlice)
      (ReachableCore.start emptyStorage rfl),
   engagementScore_always_in_range stOneAttendee
     (ReachableCore.step emptyStorage 0 (CoreOp.createAtt insertAlice)
       (ReachableCore.start emptyStorage rfl))⟩

/-! ## C8: the engagement-score range filter is inclusive and exact. -/

/-- The source's `getTargetAttendees` pipeline with the engagement-score
stage removed, for a campaign whose `targetAudience` is the given `ta`: the
"candidate" attendees — those passing the event-registration, interest and
attendance-history criteria — against which the claim characterizes the
score-range stage. -/
def audienceBeforeScoreFilter (st : Storage) (campaign : EmailCampaign)
    (ta : TargetAudience) : List Attendee :=
  let attendees := getAttendees st
  let attendees :=
    match campaign.eventId with
    | some eid =>
      let registrations := getEventRegistrations st eid
      let registeredAttendeeIds := registrations.map (fun r => r.attendeeId)
      attendees.filter (fun a => registeredAttendeeIds.contains a.id)
    | none => attendees
  let attendees :=
    match ta.interests with
    | some ints =>
      if ints.length > 0 then
        attendees.filter (fun attendee =>
          (attendee.interests.getD []).any (fun interest => ints.contains interest))
      else attendees
    | none => attendees
  match ta.attendanceHistory with
  | some hist =>
    if hist ≠ "all" then
      match campaign.eventId with
      | some eid =>
        let registrations := getEventRegistrations st eid
        let attendedSet :=
          (registrations.filter (fun r =>
            if hist == "attended" then r.attended.getD false
            else !(r.attended.getD false))).map (fun r => r.attendeeId)
        attendees.filter (fun a => attendedSet.contains a.id)
      | none => attendees
    else attendees
  | none => attendees

/-- C8: whenever the campaign's targeting criteria carry an engagement-score
range, the audience resolver returns exactly the candidate attendees whose
score `s` (a null score reads as 0, as in the source's `|| 0`) satisfies
`min ≤ s ≤ max`, bounds inclusive. -/
theorem targeting_score_range_inclusive (st : Storage) (campaign : EmailCampaign)
    (ta : TargetAudience) (range : ScoreRange)
    (hta : campaign.targetAudience = some ta)
    (hrange : ta.engagementScore = some range) :
    ∀ a, a ∈ getTargetAttendees st campaign ↔
      (a ∈ audienceBeforeScoreFilter st campaign ta ∧
        range.min ≤ a.engagementScore.getD 0 ∧ a.engagementScore.getD 0 ≤ range.max) := by
  intro a
  simp only [getTargetAttendees, audienceBeforeScoreFilter, hta, hrange]
  cases he : campaign.eventId <;> cases hi : ta.interests <;> cases hh : ta.attendanceHistory <;>
    simp only [List.mem_filter, Bool.and_eq_true, decide_eq_true_eq] <;>
    (try split_ifs) <;>
    simp only [List.mem_filter, Bool.and_eq_true, decide_eq_true_eq] <;>
    tauto

/-- Targeting criteria for the C8 witness: score range [10, 20] only. -/
def taRange : TargetAudience :=
  { interests := none, engagementScore := some { min := 10, max := 20 },
    attendanceHistory := none }

/-- Campaign for the C8 witness, targeting the [10, 20] score range. -/
def campRange : EmailCampaign :=
  { id := 50, name := "c", type := "welcome", eventId := none, templateId := none,
    subject := "s", content := "c", scheduledAt := none, sentAt := none, status := none,
    targetAudience := some taRange, createdAt := 0 }

/-- An attendee whose score sits exactly at the range minimum. -/
def attAtMin : Attendee := mkAttendee 1 "min@x" "Min" (some 10)

/-- An attendee whose score sits exactly at the range maximum. -/
def attAtMax : Attendee := mkAttendee 2 "max@x" "Max" (some 20)

/-- An attendee whose score sits just below the range minimum. -/
def attBelowMin : Attendee := mkAttendee 3 "below@x" "Below" (some 9)

/-- A store holding the three score-boundary attendees. -/
def stRange : Storage :=
  { emptyStorage with attendees := [attAtMin, attAtMax, attBelowMin] }

/-- Witness for C8: the characterization applied at the boundary attendee,
plus inclusion of both boundary scores and exclusion just outside. -/
theorem targeting_score_range_inclusive_witness :
    campRange.targetAudience = some taRange ∧
    taRange.engagementScore = some { min := 10, max := 20 } ∧
    (attAtMin ∈ getTargetAttendees stRange campRange ↔
      (attAtMin ∈ audienceBeforeScoreFilter stRange campRange taRange ∧
        (10 : Int) ≤ attAtMin.engagementScore.getD 0 ∧
        attAtMin.engagementScore.getD 0 ≤ 20)) ∧
    attAtMin ∈ getTargetAttendees stRange campRange ∧
    attAtMax ∈ getTargetAttendees stRange campRange ∧
    attBelowMin ∉ getTargetAttendees stRange campRange :=
  ⟨rfl, rfl, targeting_score_range_inclusive stRange campRange taRange _ rfl rfl attAtMin,
   by decide, by decide, by decide⟩

/-! ## C1: bulk dispatch with one failing recipient. -/

/-- The Send record created for a successful recipient (the argument of the
dispatcher's `createEmailSend` call, with the store's fresh id). -/
def newSendRecord (st : Storage) (c : EmailCampaign) (a : Attendee) (now : Int) : EmailSend :=
  { id := st.nextId, campaignId := c.id, attendeeId := a.id, sentAt := now,
    openedAt := none, clickedAt := none, bounced := some false,
    unsubscribed := some false }

/-- The boolean returned by `sendCampaignEmail` is the provider outcome, and
the state it returns differs from the input only in `emailSends` (one new
record on success), `attendees` (the last-activity refresh) and the id
supply: templates, events and campaigns are untouched. -/
theorem sendCampaignEmail_fields (env : Env) (st : Storage) (c : EmailCampaign)
    (a : Attendee) :
    (sendCampaignEmail env st c a).2 = campaignEmailSuccess env st c a ∧
    (sendCampaignEmail env st c a).1.emailTemplates = st.emailTemplates ∧
    (sendCampaignEmail env st c a).1.events = st.events ∧
    (sendCampaignEmail env st c a).1.emailCampaigns = st.emailCampaigns ∧
    (sendCampaignEmail env st c a).1.emailSends =
      (if campaignEmailSuccess env st c a then
        st.emailSends ++ [newSendRecord st c a env.now]
      else st.emailSends) := by
  cases hb : campaignEmailSuccess env st c a <;>
    simp [sendCampaignEmail, hb, createEmailSend, updateAttendee, newSendRecord]

/-- The provider outcome depends on the store only through the template and
event tables (the rendered subject/content read nothing else). -/
theorem campaignEmailSuccess_congr (env : Env) (c : EmailCampaign) (a : Attendee)
    (st st' : Storage) (ht : st'.emailTemplates = st.emailTemplates)
    (he : st'.events = st.events) :
    campaignEmailSuccess env st' c a = campaignEmailSuccess env st c a := by
  simp only [campaignEmailSuccess, campaignEmailContent, getEmailTemplate, getEvent, ht, he]

/-- The per-recipient step of the bulk loop, written with the provider
outcome as an explicit condition. -/
theorem sendBulkStep_eq (env : Env) (c : EmailCampaign)
    (acc : Storage × Nat × Nat × List String) (a : Attendee) :
    sendBulkStep env c acc a =
      if campaignEmailSuccess env acc.1 c a then
        ((sendCampaignEmail env acc.1 c a).1, acc.2.1 + 1, acc.2.2.1, acc.2.2.2)
      else
        ((sendCampaignEmail env acc.1 c a).1, acc.2.1, acc.2.2.1 + 1,
          acc.2.2.2 ++ ["Failed to send to " ++ a.email]) := by
  have hsnd := (sendCampaignEmail_fields env acc.1 c a).1
  unfold sendBulkStep
  cases hp : sendCampaignEmail env acc.1 c a with
  | mk st1 b =>
    rw [hp] at hsnd
    cases b
    · rw [← hsnd]
      simp
    · rw [← hsnd]
      simp

/-- Pointwise-equal predicates count equally (list form used below). -/
theorem countP_congr_list {α : Type} (p q : α → Bool) :
    ∀ l : List α, (∀ x ∈ l, p x = q x) → l.countP p = l.countP q := by
  intro l
  induction l with
  | nil => intro _; rfl
  | cons a t ih =>
    intro h
    rw [List.countP_cons, List.countP_cons, h a (by simp),
      ih (fun x hx => h x (by simp [hx]))]

/-- Master specification of the bulk-send fold: counts of successes and
failures, one error string per failure, one new Send record per success
(each referencing the campaign and a successful recipient), and preservation
of the template, event and campaign tables. Success of a recipient is
measured against the initial store, which is legitimate because the fold
never touches the tables the outcome reads. -/
theorem sendBulk_foldl_spec (env : Env) (c : EmailCampaign) :
    ∀ (as : List Attendee) (st : Storage) (s f : Nat) (es : List String),
      (as.foldl (sendBulkStep env c) (st, s, f, es)).2.1 =
          s + as.countP (fun a => campaignEmailSuccess env st c a) ∧
      (as.foldl (sendBulkStep env c) (st, s, f, es)).2.2.1 =
          f + as.countP (fun a => !campaignEmailSuccess env st c a) ∧
      (as.foldl (sendBulkStep env c) (st, s, f, es)).2.2.2.length =
          es.length + as.countP (fun a => !campaignEmailSuccess env st c a) ∧
      (as.foldl (sendBulkStep env c) (st, s, f, es)).1.emailTemplates = st.emailTemplates ∧
      (as.foldl (sendBulkStep env c) (st, s, f, es)).1.events = st.events ∧
      (as.foldl (sendBulkStep env c) (st, s, f, es)).1.emailCampaigns = st.emailCampaigns ∧
      (as.foldl (sendBulkStep env c) (st, s, f, es)).1.emailSends.length =
          st.emailSends.length + as.countP (fun a => campaignEmailSuccess env st c a) ∧
      (∀ x ∈ (as.foldl (sendBulkStep env c) (st, s, f, es)).1.emailSends,
        x ∈ st.emailSends ∨ (x.campaignId = c.id ∧
          ∃ a ∈ as, campaignEmailSuccess env st c a = true ∧ x.attendeeId = a.id)) := by
  intro as
  induction as with
  | nil =>
    intro st s f es
    refine ⟨by simp, by simp, by simp, rfl, rfl, rfl, by simp, ?_⟩
    intro x hx
    exact Or.inl hx
  | cons a rest ih =>
    intro st s f es
    have hfields := sendCampaignEmail_fields env st c a
    have hT := hfields.2.1
    have hE := hfields.2.2.1
    have hC := hfields.2.2.2.1
    have hS := hfields.2.2.2.2
    have hcongr : ∀ x ∈ rest,
        campaignEmailSuccess env (sendCampaignEmail env st c a).1 c x =
          campaignEmailSuccess env st c x :=
      fun x _ => campaignEmailSuccess_congr env c x st _ hT hE
    have hcongrNot : ∀ x ∈ rest,
        (!campaignEmailSuccess env (sendCampaignEmail env st c a).1 c x) =
          (!campaignEmailSuccess env st c x) :=
      fun x hx => by rw [hcongr x hx]
    have hcount := countP_congr_list
      (fun x => campaignEmailSuccess env (sendCampaignEmail env st c a).1 c x)
      (fun x => campaignEmailSuccess env st c x) rest hcongr
    have hcountNot := countP_congr_list
      (fun x => !campaignEmailSuccess env (sendCampaignEmail env st c a).1 c x)
      (fun x => !campaignEmailSuccess env st c x) rest hcongrNot
    rw [List.foldl_cons, sendBulkStep_eq]
    cases hb : campaignEmailSuccess env st c a
    · rw [if_neg (by simp [hb])]
      obtain ⟨F1, F2, F3, F4, F5, F6, F7, F8⟩ :=
        ih (sendCampaignEmail env st c a).1 s (f + 1)
          (es ++ ["Failed to send to " ++ a.email])
      refine ⟨?_, ?_, ?_, ?_, ?_, ?_, ?_, ?_⟩
      · rw [F1, hcount, List.countP_cons]
        simp [hb]
      · rw [F2, hcountNot, List.countP_cons]
        simp [hb]
        omega
      · rw [F3, hcountNot, List.countP_cons]
        simp [hb]
        omega
      · rw [F4, hT]
      · rw [F5, hE]
      · rw [F6, hC]
      · rw [F7, hcount, List.countP_cons]
        rw [hS, if_neg (by simp [hb])]
        simp [hb]
      · intro x hx
        rcases F8 x hx with hmem | ⟨hcid, a2, ha2, hsucc2, haid⟩
        · rw [hS, if_neg (by simp [hb])] at hmem
          exact Or.inl hmem
        · exact Or.inr ⟨hcid, a2, List.mem_cons_of_mem a ha2,
            by rw [← hcongr a2 ha2]; exact hsucc2, haid⟩
    · rw [if_pos (by simp [hb])]
      obtain ⟨F1, F2, F3, F4, F5, F6, F7, F8⟩ :=
        ih (sendCampaignEmail env st c a).1 (s + 1) f es
      refine ⟨?_, ?_, ?_, ?_, ?_, ?_, ?_, ?_⟩
      · rw [F1, hcount, List.countP_cons]
        simp [hb]
        omega
      · rw [F2, hcountNot, List.countP_cons]
        simp [hb]
      · rw [F3, hcountNot, List.countP_cons]
        simp [hb]
      · rw [F4, hT]
      · rw [F5, hE]
      · rw [F6, hC]
      · rw [F7, hcount, List.countP_cons]
        rw [hS, if_pos (by simp [hb])]
        simp [hb]
        omega
      · intro x hx
        rcases F8 x hx with hmem | ⟨hcid, a2, ha2, hsucc2, haid⟩
        · rw [hS, if_pos (by simp [hb])] at hmem
          rcases List.mem_append.mp hmem with hold | hnew
          · exact Or.inl hold
          · refine Or.inr ⟨?_, a, List.mem_cons_self a rest, hb, ?_⟩
            · rw [List.mem_singleton.mp hnew]
              rfl
            · rw [List.mem_singleton.mp hnew]
              rfl
        · exact Or.inr ⟨hcid, a2, List.mem_cons_of_mem a ha2,
            by rw [← hcongr a2 ha2]; exact hsucc2, haid⟩

/-- Length splits into the counts of a predicate and its negation. -/
theorem countP_not_add {α : Type} (p : α → Bool) (l : List α) :
    l.length = l.countP p + l.countP (fun a => !p a) := by
  have h := List.length_eq_countP_add_countP p (l := l)
  have h2 : l.countP (fun a => decide ¬ p a = true) = l.countP (fun a => !p a) :=
    countP_congr_list _ _ l (fun a _ => by cases hpa : p a <;> simp [hpa])
  rw [h, h2]

/-- Searching by id commutes with an id-preserving conditional rewrite of the
matching entries. -/
theorem find?_id_map_cond (g : EmailCampaign → EmailCampaign)
    (hg : ∀ x, (g x).id = x.id) (id : EntityId) :
    ∀ l : List EmailCampaign,
      (l.map (fun x => if x.id == id then g x else x)).find? (fun x => x.id == id) =
        (l.find? (fun x => x.id == id)).map g := by
  intro l
  induction l with
  | nil => rfl
  | cons c l ih =>
    simp only [List.map_cons]
    by_cases hcid : (c.id == id) = true
    · rw [if_pos hcid]
      have hgc : ((g c).id == id) = true := by rw [hg c]; exact hcid
      simp only [List.find?_cons, hgc, hcid]
      rfl
    · rw [if_neg hcid]
      have hcid2 : (c.id == id) = false := by simpa using hcid
      have hgc2 : ((g c).id == id) = false := by rw [hg c]; exact hcid2
      simp only [List.find?_cons, hcid2]
      exact ih

/-- Looking an id up after `updateEmailCampaign` returns the stored record
with the update spread over it. -/
theorem getEmailCampaign_update (st : Storage) (id : EntityId)
    (upd : EmailCampaignUpdate) :
    getEmailCampaign (updateEmailCampaign st id upd) id =
      (getEmailCampaign st id).map (fun c =>
        { c with
          status := match upd.status with | some s => some s | none => c.status,
          sentAt := match upd.sentAt with | some t => some t | none => c.sentAt }) := by
  simp only [getEmailCampaign, updateEmailCampaign]
  exact find?_id_map_cond
    (fun c => { c with
      status := match upd.status with | some s => some s | none => c.status,
      sentAt := match upd.sentAt with | some t => some t | none => c.sentAt })
    (fun x => rfl) id st.emailCampaigns

/-- Campaign lookup reads only the campaign table. -/
theorem getEmailCampaign_congr (st st' : Storage) (id : EntityId)
    (h : st'.emailCampaigns = st.emailCampaigns) :
    getEmailCampaign st' id = getEmailCampaign st id := by
  simp only [getEmailCampaign, h]

/-- C1: for a campaign whose resolved audience has 15 attendees with pairwise
distinct ids and a send capability that fails for exactly one of them,
`sendBulkCampaign` reports sent = 14, failed = 1 with exactly one
per-recipient error string, exactly 14 Send records are created — every new
record references a successful recipient, none the failed one — and the
campaign's status is set to `sent` with `sentAt = now` upon completion
regardless of the partial failure. -/
theorem sendBulkCampaign_partial_failure (env : Env) (st : Storage)
    (campaignId : EntityId) (c : EmailCampaign)
    (hc : getEmailCampaign st campaignId = some c)
    (hlen : (getTargetAttendees st c).length = 15)
    (hfail : (getTargetAttendees st c).countP
        (fun a => !campaignEmailSuccess env st c a) = 1)
    (hids : ((getTargetAttendees st c).map (fun a => a.id)).Nodup) :
    ∃ (st1 : Storage) (errs : List String),
      sendBulkCampaign env st campaignId =
        Except.ok (st1, { sent := 14, failed := 1, errors := errs }) ∧
      errs.length = 1 ∧
      st1.emailSends.length = st.emailSends.length + 14 ∧
      getEmailCampaign st1 campaignId =
        some { c with status := some "sent", sentAt := some env.now } ∧
      (∀ x ∈ st1.emailSends, x ∉ st.emailSends →
        ∀ a ∈ getTargetAttendees st c,
          campaignEmailSuccess env st c a = false → x.attendeeId ≠ a.id) := by
  have hsucc : (getTargetAttendees st c).countP
      (fun a => campaignEmailSuccess env st c a) = 14 := by
    have htot := countP_not_add (fun a => campaignEmailSuccess env st c a)
      (getTargetAttendees st c)
    omega
  obtain ⟨F1, F2, F3, F4, F5, F6, F7, F8⟩ :=
    sendBulk_foldl_spec env c (getTargetAttendees st c) st 0 0 []
  have hsent : ((getTargetAttendees st c).foldl (sendBulkStep env c)
      (st, 0, 0, [])).2.1 = 14 := by
    rw [F1, hsucc]
  have hfailed : ((getTargetAttendees st c).foldl (sendBulkStep env c)
      (st, 0, 0, [])).2.2.1 = 1 := by
    rw [F2, hfail]
  simp only [sendBulkCampaign, hc]
  refine ⟨updateEmailCampaign ((getTargetAttendees st c).foldl (sendBulkStep env c)
      (st, 0, 0, [])).1 campaignId { status := some "sent", sentAt := some env.now },
    ((getTargetAttendees st c).foldl (sendBulkStep env c) (st, 0, 0, [])).2.2.2,
    ?_, ?_, ?_, ?_, ?_⟩
  · rw [hsent, hfailed]
  · rw [F3, hfail]
    rfl
  · show ((getTargetAttendees st c).foldl (sendBulkStep env c)
      (st, 0, 0, [])).1.emailSends.length = st.emailSends.length + 14
    rw [F7, hsucc]
  · rw [getEmailCampaign_update, getEmailCampaign_congr st _ campaignId F6, hc]
    rfl
  · intro x hx hxnotold a ha hafail heq
    rcases F8 x hx with hmem | ⟨hcid2, a2, ha2, hsucc2, haid2⟩
    · exact hxnotold hmem
    · have ha2a : a2 = a :=
        List.inj_on_of_nodup_map hids ha2 ha (haid2.symm.trans heq)
      rw [ha2a, hafail] at hsucc2
      cases hsucc2

/-- Fifteen attendees with distinct ids and emails `a0`..`a14`. -/
def bulkAttendees : List Attendee :=
  [mkAttendee 0 "a0" "A0" (some 0), mkAttendee 1 "a1" "A1" (some 0),
   mkAttendee 2 "a2" "A2" (some 0), mkAttendee 3 "a3" "A3" (some 0),
   mkAttendee 4 "a4" "A4" (some 0), mkAttendee 5 "a5" "A5" (some 0),
   mkAttendee 6 "a6" "A6" (some 0), mkAttendee 7 "a7" "A7" (some 0),
   mkAttendee 8 "a8" "A8" (some 0), mkAttendee 9 "a9" "A9" (some 0),
   mkAttendee 10 "a10" "A10" (some 0), mkAttendee 11 "a11" "A11" (some 0),
   mkAttendee 12 "a12" "A12" (some 0), mkAttendee 13 "a13" "A13" (some 0),
   mkAttendee 14 "a14" "A14" (some 0)]

/-- A campaign with no event, template or targeting criteria, so its
resolved audience is the whole attendee population. -/
def bulkCampaign : EmailCampaign :=
  { id := 100, name := "Launch", type := "welcome", eventId := none, templateId := none,
    subject := "s", content := "c", scheduledAt := none, sentAt := none,
    status := some "sending", targetAudience := none, createdAt := 0 }

/-- The store holding the fifteen attendees and the campaign. -/
def stBulk : Storage :=
  { emptyStorage with
    attendees := bulkAttendees,
    emailCampaigns := [bulkCampaign],
    nextId := 200 }

/-- A provider that fails for recipient `a7` (attendee #7) and succeeds for
everyone else. -/
def envFailSeven : Env :=
  { now := 1000, sendEmail := fun addr _ _ => !(addr == "a7"),
    personalize := fun _ _ _ => none, formatDate := fun _ => "",
    formatTime := fun _ => "" }

/-- Witness for C1: the concrete 15-attendee campaign whose provider fails
exactly for attendee #7 satisfies every hypothesis, and the dispatch reports
14 sent / 1 failed with one error string, 14 new Send records, and the
campaign marked `sent` at time 1000. -/
theorem sendBulkCampaign_partial_failure_witness :
    getEmailCampaign stBulk 100 = some bulkCampaign ∧
    (getTargetAttendees stBulk bulkCampaign).length = 15 ∧
    (getTargetAttendees stBulk bulkCampaign).countP
      (fun a => !campaignEmailSuccess envFailSeven stBulk bulkCampaign a) = 1 ∧
    ((getTargetAttendees stBulk bulkCampaign).map (fun a => a.id)).Nodup ∧
    (∃ (st1 : Storage) (errs : List String),
      sendBulkCampaign envFailSeven stBulk 100 =
        Except.ok (st1, { sent := 14, failed := 1, errors := errs }) ∧
      errs.length = 1 ∧
      st1.emailSends.length = stBulk.emailSends.length + 14 ∧
      getEmailCampaign st1 100 =
        some { bulkCampaign with status := some "sent", sentAt := some (1000 : Int) } ∧
      (∀ x ∈ st1.emailSends, x ∉ stBulk.emailSends →
        ∀ a ∈ getTargetAttendees stBulk bulkCampaign,
          campaignEmailSuccess envFailSeven stBulk bulkCampaign a = false →
          x.attendeeId ≠ a.id)) :=
  ⟨by decide, by decide, by decide, by decide,
   sendBulkCampaign_partial_failure envFailSeven stBulk 100 bulkCampaign
     (by decide) (by decide) (by decide) (by decide)⟩
